import Mathlib

/-!
Shallow embedding of the DNSSEC exporter's resolution-and-metrics engine
(`main.go` of chrj/prometheus-dnssec-exporter: `resolve`, the RRSIG
selection loop, and the per-(check, resolver) goroutine body of `Collect`).

Conventions of the embedding:
* Go `time.Time` values occurring here are always whole-second instants,
  so a time is modelled by its Unix-epoch second count (`GoTime.unix`).
  The Go zero `time.Time` (January 1, year 1 UTC) has Unix value
  -62135596800; `time.Time.IsZero` tests for exactly that instant, and
  `time.Unix(sec, 0)` yields the instant with Unix value `sec`.
* `rrsig.Expiration` is a `uint32`, modelled as `Nat` (only nonnegativity
  matters to the control flow).
* The network exchange is external; `resolve` takes the decoded response
  as an input, `none` standing for a transport/timeout error.
* Each `Collect` goroutine is modelled in isolation by `collectUnit`,
  which returns the gauge writes that goroutine performs.  Gauge values
  are exact here (`Int`/`ℚ`); the float64 rounding performed by the Go
  metrics client is value-preserving for every integer emitted below
  (all are smaller than 2^53 in magnitude).
-/

/-- A check from the configuration: `Records` in main.go. -/
structure Records where
  zone : String
  record : String
  type : String
deriving DecidableEq, Repr

/-- The fields of a `dns.RRSIG` answer record that `resolve` reads:
`Hdr.Name`, `TypeCovered` (a uint16 code) and `Expiration` (uint32). -/
structure RRSIG where
  hdrName : String
  typeCovered : Nat
  expiration : Nat
deriving DecidableEq, Repr

/-- An answer-section record: either an RRSIG or any other record type
(which the selection loop skips). -/
inductive RR where
  | rrsig (s : RRSIG)
  | other (name : String) (rtype : Nat)
deriving DecidableEq, Repr

/-- The fields of a decoded `dns.Msg` response that `resolve` reads. -/
structure DnsMsg where
  rcode : Nat
  authenticatedData : Bool
  authoritative : Bool
  answer : List RR
deriving DecidableEq, Repr

/-- `dns.RcodeSuccess`. -/
def rcodeSuccess : Nat := 0

/-- `dns.RcodeServerFailure`. -/
def rcodeServerFailure : Nat := 2

/-- `dns.RcodeRefused`. -/
def rcodeRefused : Nat := 5

/-- Unix value of the Go zero `time.Time` (January 1, year 1 UTC). -/
def zeroUnix : Int := -62135596800

/-- A whole-second Go `time.Time`, identified by its Unix value. -/
structure GoTime where
  unix : Int
deriving DecidableEq, Repr

/-- The Go zero `time.Time`. -/
def GoTime.zero : GoTime := ⟨zeroUnix⟩

/-- `time.Unix(sec, 0)`. -/
def timeUnix (sec : Int) : GoTime := ⟨sec⟩

/-- `t.IsZero()`: true exactly for the zero instant (year 1), not for
the Unix epoch. -/
def GoTime.isZero (t : GoTime) : Bool := t.unix = zeroUnix

/-- `a.Before(b)`. -/
def GoTime.before (a b : GoTime) : Bool := a.unix < b.unix

/-- The fragment of the `dns.TypeToString` map relevant here.  A lookup
of a key absent from the Go map yields the zero value `""`; the single
behaviourally relevant property, that `"AXFR"` is the image of code 252
and of no other code, is preserved. -/
def typeToString (t : Nat) : String :=
  if t = 1 then "A"
  else if t = 2 then "NS"
  else if t = 6 then "SOA"
  else if t = 15 then "MX"
  else if t = 16 then "TXT"
  else if t = 28 then "AAAA"
  else if t = 46 then "RRSIG"
  else if t = 48 then "DNSKEY"
  else if t = 252 then "AXFR"
  else ""

/-- The in-place identity override performed inside the selection loop:
`record.Record = rrsig.Hdr.Name; record.Type = dns.TypeToString[rrsig.TypeCovered]`. -/
def applySig (r : Records) (s : RRSIG) : Records :=
  { r with record := s.hdrName, type := typeToString s.typeCovered }

/-- One iteration of the RRSIG loop in `resolve`.  Go parses the guard
`expires.IsZero() || sigexp.Before(expires) && !sigexp.IsZero()` with
`&&` binding tighter than `||`, which is what is written here. -/
def selectStep (st : Records × GoTime) (rr : RR) : Records × GoTime :=
  match rr with
  | RR.rrsig s =>
    let sigexp := timeUnix (s.expiration : Int)
    if st.2.isZero || (sigexp.before st.2 && !sigexp.isZero) then
      (applySig st.1 s, sigexp)
    else st
  | RR.other _ _ => st

/-- The whole RRSIG loop of `resolve`: fold of `selectStep` over the
answer section, starting from the unmutated check and the zero
`expires`. -/
def selectSignatures (rec : Records) (answer : List RR) : Records × GoTime :=
  answer.foldl selectStep (rec, GoTime.zero)

/-- `Exporter.resolve` on a check and a decoded response (`none` is a
transport/timeout error).  Returns `(resolves, expires, record-after)`,
the last component being the pointed-to check value after `resolve`
returns (the Go code mutates it through the pointer).  The `resolves`
expression transcribes Go's
`response.Rcode == dns.RcodeSuccess && response.AuthenticatedData || response.Authoritative`,
in which `&&` binds tighter than `||`. -/
def resolve (record : Records) (resp : Option DnsMsg) : Bool × GoTime × Records :=
  match resp with
  | none => (false, GoTime.zero, record)
  | some response =>
    if record.type = "AXFR" ∧ response.rcode ≠ rcodeSuccess then
      (false, GoTime.zero, record)
    else
      let res := (decide (response.rcode = rcodeSuccess) && response.authenticatedData)
        || response.authoritative
      let sel := selectSignatures record response.answer
      (res, sel.2, sel.1)

/-- `time.Duration` bounds (int64 nanoseconds). -/
def maxDuration : Int := 9223372036854775807

/-- Minimal `time.Duration`. -/
def minDuration : Int := -9223372036854775808

/-- `a.Sub(b)` in nanoseconds: Go saturates at the `Duration` bounds. -/
def subSat (a b : GoTime) : Int :=
  let d := (a.unix - b.unix) * 1000000000
  if d > maxDuration then maxDuration
  else if d < minDuration then minDuration
  else d

/-- `time.Until(t)` at current instant `now`, in nanoseconds. -/
def timeUntil (now t : GoTime) : Int := subSat t now

/-- Nanoseconds in `time.Hour`. -/
def nsPerHour : Int := 3600000000000

/-- The value stored in `dnssec_zone_record_days_left`:
`float64(time.Until(expires)/time.Hour) / 24`, with Go's `Duration`
division truncating toward zero. -/
def daysLeft (now t : GoTime) : ℚ := ((Int.tdiv (timeUntil now t) nsPerHour : Int) : ℚ) / 24

/-- Label tuple of the per-resolver gauges. -/
structure ResolverLabels where
  resolver : String
  zone : String
  record : String
  type : String
deriving DecidableEq, Repr

/-- Label tuple of `dnssec_zone_record_days_left`. -/
structure RecordLabels where
  zone : String
  record : String
  type : String
deriving DecidableEq, Repr

/-- The gauge writes one `Collect` goroutine performs for its
(check, resolver) pair: `dnssec_zone_record_resolves`,
`dnssec_zone_record_earliest_rrsig_expiry` and
`dnssec_zone_record_days_left`; `none` means the gauge is not set. -/
structure UnitEmissions where
  resolvesG : Option (ResolverLabels × Int)
  expiryG : Option (ResolverLabels × Int)
  daysG : Option (RecordLabels × ℚ)
deriving DecidableEq, Repr

/-- The body of one `Collect` goroutine, modelled in isolation for its
(check, resolver) pair: call `resolve`, return early (no gauges) when
the check's type — as left by `resolve`, which may have overwritten it —
still reads "AXFR", otherwise set the resolves gauge, the expiry gauge
when `resolves` holds, and the days-left gauge when this unit's resolver
equals `e.resolvers[0]`.  All labels read the mutated check value. -/
def collectUnit (resolvers : List String) (rec : Records) (resolver : String)
    (resp : Option DnsMsg) (now : GoTime) : UnitEmissions :=
  let r := resolve rec resp
  let res := r.1
  let expires := r.2.1
  let rec2 := r.2.2
  if rec2.type = "AXFR" then
    ⟨none, none, none⟩
  else
    { resolvesG := some (⟨resolver, rec2.zone, rec2.record, rec2.type⟩,
        if res then 1 else 0)
      expiryG := if res then
          some (⟨resolver, rec2.zone, rec2.record, rec2.type⟩, expires.unix)
        else none
      daysG := if resolvers.head? = some resolver then
          some (⟨rec2.zone, rec2.record, rec2.type⟩, daysLeft now expires)
        else none }

/-- The RRSIG records of an answer section, in arrival order. -/
def sigOf : RR → Option RRSIG
  | RR.rrsig s => some s
  | RR.other _ _ => none

/-- RRSIGs of an answer section. -/
def answerSigs (l : List RR) : List RRSIG := l.filterMap sigOf

/-- Expiration timestamps of the RRSIGs of an answer section. -/
def sigExps (l : List RR) : List Nat := (answerSigs l).map (fun s => s.expiration)

/-- Minimum of a list of naturals, `none` on the empty list. -/
def listMin? : List Nat → Option Nat
  | [] => none
  | e :: es => some (es.foldl min e)

/-- `selectStep` restricted to RRSIG inputs. -/
def sigStep (st : Records × GoTime) (s : RRSIG) : Records × GoTime :=
  selectStep st (RR.rrsig s)

example : Int.tdiv (-9) 4 = -2 := by decide

example : Int.tdiv (-9223372036854775808) 3600000000000 = -2562047 := by decide

example : typeToString 2 = "NS" := by rfl

/-- A `time.Unix` instant built from a `uint32` expiration is never the
zero time. -/
lemma isZero_timeUnix_ofNat (e : Nat) : (timeUnix ((e : Nat) : Int)).isZero = false := by
  simp only [GoTime.isZero, timeUnix, zeroUnix, decide_eq_false_iff_not]
  intro hcontra
  omega

/-- The zero time is zero. -/
lemma isZero_zero : GoTime.zero.isZero = true := by
  simp [GoTime.isZero, GoTime.zero]

/-- `Before` on second-resolution instants. -/
lemma before_timeUnix (a b : Int) : (timeUnix a).before (timeUnix b) = decide (a < b) := rfl

/-- Overriding an already-overridden identity only keeps the last
signature's data (the zone is never touched). -/
lemma applySig_applySig (r : Records) (s s2 : RRSIG) :
    applySig (applySig r s) s2 = applySig r s2 := rfl

/-- The zone field is never overridden. -/
lemma applySig_zone (r : Records) (s : RRSIG) : (applySig r s).zone = r.zone := rfl

/-- From the zero state, the first signature always wins. -/
lemma sigStep_zero (r : Records) (s : RRSIG) :
    sigStep (r, GoTime.zero) s = (applySig r s, timeUnix (s.expiration : Int)) := by
  simp [sigStep, selectStep, isZero_zero]

/-- From a non-zero state holding a `uint32` second count, a signature
wins exactly when its expiration is strictly smaller: the
`!sigexp.IsZero()` conjunct is vacuous because `time.Unix` of a `uint32`
never yields the zero time. -/
lemma sigStep_nonzero (r : Records) (c : Nat) (s : RRSIG) :
    sigStep (r, timeUnix (c : Int)) s =
      if s.expiration < c then (applySig r s, timeUnix (s.expiration : Int))
      else (r, timeUnix (c : Int)) := by
  by_cases h : s.expiration < c
  · have hb : (timeUnix ((s.expiration : Nat) : Int)).before (timeUnix (c : Int)) = true := by
      simp only [timeUnix, GoTime.before, decide_eq_true_eq]
      exact_mod_cast h
    simp [sigStep, selectStep, isZero_timeUnix_ofNat, hb, h]
  · have hb : (timeUnix ((s.expiration : Nat) : Int)).before (timeUnix (c : Int)) = false := by
      simp only [timeUnix, GoTime.before, decide_eq_false_iff_not]
      intro hcontra
      exact h (by exact_mod_cast hcontra)
    simp [sigStep, selectStep, isZero_timeUnix_ofNat, hb, h]

/-- The selection loop skips non-RRSIG records: folding over the answer
equals folding over its RRSIGs. -/
lemma foldl_selectStep_eq (l : List RR) (st : Records × GoTime) :
    l.foldl selectStep st = (answerSigs l).foldl sigStep st := by
  induction l generalizing st with
  | nil => rfl
  | cons rr t ih =>
    cases rr with
    | rrsig s =>
      simp only [List.foldl_cons, answerSigs, List.filterMap_cons, sigOf]
      exact ih (sigStep st s)
    | other n ty =>
      simp only [List.foldl_cons, answerSigs, List.filterMap_cons, sigOf, selectStep]
      exact ih st

/-- Timestamp component of the fold from a non-zero state: a running
minimum. -/
lemma sigFold_snd (l : List RRSIG) (r : Records) (c : Nat) :
    (l.foldl sigStep (r, timeUnix (c : Int))).2 =
      timeUnix (((l.map (fun s => s.expiration)).foldl min c : Nat) : Int) := by
  induction l generalizing r c with
  | nil => rfl
  | cons s t ih =>
    rw [List.foldl_cons, sigStep_nonzero, List.map_cons, List.foldl_cons]
    by_cases h : s.expiration < c
    · rw [if_pos h, ih, Nat.min_eq_right h.le]
    · rw [if_neg h, ih, Nat.min_eq_left (Nat.le_of_not_lt h)]

/-- Identity component of the fold from a non-zero state: either
untouched (and the minimum is the incumbent), or overridden by a member
achieving the minimum. -/
lemma sigFold_fst (l : List RRSIG) (r : Records) (c : Nat) :
    ((l.foldl sigStep (r, timeUnix (c : Int))).1 = r ∧
      (l.map (fun s => s.expiration)).foldl min c = c) ∨
    ∃ s ∈ l, s.expiration = (l.map (fun s => s.expiration)).foldl min c ∧
      (l.foldl sigStep (r, timeUnix (c : Int))).1 = applySig r s := by
  induction l generalizing r c with
  | nil => left; exact ⟨rfl, rfl⟩
  | cons s t ih =>
    rw [List.foldl_cons, sigStep_nonzero, List.map_cons, List.foldl_cons]
    by_cases h : s.expiration < c
    · rw [if_pos h, Nat.min_eq_right h.le]
      rcases ih (applySig r s) s.expiration with ⟨h1, h2⟩ | ⟨s2, hs2, he, hfst⟩
      · right
        exact ⟨s, List.mem_cons_self s t, h2.symm, by rw [h1]⟩
      · right
        exact ⟨s2, List.mem_cons_of_mem s hs2, he, by rw [hfst, applySig_applySig]⟩
    · rw [if_neg h, Nat.min_eq_left (Nat.le_of_not_lt h)]
      rcases ih r c with ⟨h1, h2⟩ | ⟨s2, hs2, he, hfst⟩
      · left; exact ⟨h1, h2⟩
      · right; exact ⟨s2, List.mem_cons_of_mem s hs2, he, hfst⟩

/-- An empty signature list leaves the check and the expiry untouched. -/
lemma selectSignatures_of_no_sig (rec : Records) (l : List RR) (h : answerSigs l = []) :
    selectSignatures rec l = (rec, GoTime.zero) := by
  rw [selectSignatures, foldl_selectStep_eq, h]
  rfl

/-- A left fold of `min` is bounded by its seed. -/
lemma foldl_min_le_init (l : List Nat) (a : Nat) : l.foldl min a ≤ a := by
  induction l generalizing a with
  | nil => exact le_refl a
  | cons x t ih => exact le_trans (ih (min a x)) (min_le_left a x)

/-- A left fold of `min` is bounded by every member. -/
lemma foldl_min_le_mem (l : List Nat) (a x : Nat) (hx : x ∈ l) : l.foldl min a ≤ x := by
  induction l generalizing a with
  | nil => cases hx
  | cons y t ih =>
    rw [List.foldl_cons]
    rcases List.mem_cons.mp hx with rfl | hmem
    · exact le_trans (foldl_min_le_init t (min a x)) (min_le_right a x)
    · exact ih (min a y) hmem

/-- A left fold of `min` is its seed or a member. -/
lemma foldl_min_mem (l : List Nat) (a : Nat) : l.foldl min a = a ∨ l.foldl min a ∈ l := by
  induction l generalizing a with
  | nil => left; rfl
  | cons x t ih =>
    rw [List.foldl_cons]
    rcases ih (min a x) with h | h
    · rw [h]
      rcases min_choice a x with h2 | h2
      · left; exact h2
      · right; rw [h2]; exact List.mem_cons_self x t
    · right; exact List.mem_cons_of_mem x h

/-- `listMin?` returns a member. -/
lemma listMin?_mem (l : List Nat) (m : Nat) (h : listMin? l = some m) : m ∈ l := by
  cases l with
  | nil => cases h
  | cons e es =>
    have hm : es.foldl min e = m := by
      simpa [listMin?] using h
    rcases foldl_min_mem es e with h2 | h2
    · rw [← hm, h2]; exact List.mem_cons_self e es
    · rw [← hm]; exact List.mem_cons_of_mem e h2

/-- `listMin?` is a lower bound. -/
lemma listMin?_le (l : List Nat) (m : Nat) (h : listMin? l = some m) :
    ∀ x ∈ l, m ≤ x := by
  cases l with
  | nil => cases h
  | cons e es =>
    have hm : es.foldl min e = m := by
      simpa [listMin?] using h
    intro x hx
    rcases List.mem_cons.mp hx with rfl | hmem
    · rw [← hm]; exact foldl_min_le_init es x
    · rw [← hm]; exact foldl_min_le_mem es e x hmem

/-- `listMin?` is `none` exactly on the empty list. -/
lemma listMin?_eq_none_iff (l : List Nat) : listMin? l = none ↔ l = [] := by
  cases l <;> simp [listMin?]

/-- `listMin?` is permutation-invariant. -/
lemma listMin?_perm (l l2 : List Nat) (p : l.Perm l2) : listMin? l = listMin? l2 := by
  cases hl : listMin? l with
  | none =>
    have : l = [] := (listMin?_eq_none_iff l).mp hl
    subst this
    have : l2 = [] := p.symm.eq_nil
    subst this
    rfl
  | some m =>
    cases hl2 : listMin? l2 with
    | none =>
      have : l2 = [] := (listMin?_eq_none_iff l2).mp hl2
      subst this
      have : l = [] := p.eq_nil
      subst this
      cases hl
    | some m2 =>
      have h1 : m ≤ m2 := listMin?_le l m hl m2 (p.mem_iff.mpr (listMin?_mem l2 m2 hl2))
      have h2 : m2 ≤ m := listMin?_le l2 m2 hl2 m (p.mem_iff.mp (listMin?_mem l m hl))
      rw [le_antisymm h1 h2]

/-- Characterization of the selection loop when at least one signature
is present: the selected expiry is the minimum expiration over all
signatures (a zero expiration participating as the Unix epoch), and the
reported identity is that of a signature achieving the minimum. -/
lemma selectSignatures_min (rec : Records) (l : List RR) (m : Nat)
    (h : listMin? (sigExps l) = some m) :
    (selectSignatures rec l).2 = timeUnix (m : Int) ∧
    ∃ s ∈ answerSigs l, s.expiration = m ∧ (selectSignatures rec l).1 = applySig rec s := by
  cases hs : answerSigs l with
  | nil =>
    rw [sigExps, hs] at h
    cases h
  | cons s t =>
    have hfold : selectSignatures rec l =
        t.foldl sigStep (applySig rec s, timeUnix (s.expiration : Int)) := by
      rw [selectSignatures, foldl_selectStep_eq, hs, List.foldl_cons, sigStep_zero]
    have hm : (t.map (fun s => s.expiration)).foldl min s.expiration = m := by
      rw [sigExps, hs, List.map_cons] at h
      simpa [listMin?] using h
    constructor
    · rw [hfold, sigFold_snd, hm]
    · rcases sigFold_fst t (applySig rec s) s.expiration with ⟨h1, h2⟩ | ⟨s2, hs2, he, hfst⟩
      · refine ⟨s, List.mem_cons_self s t, ?_, ?_⟩
        · rw [← hm, h2]
        · rw [hfold, h1]
      · refine ⟨s2, List.mem_cons_of_mem s hs2, ?_, ?_⟩
        · rw [← hm]; exact he
        · rw [hfold, hfst, applySig_applySig]

/-- The zone of the check is never modified by the selection loop. -/
lemma selectSignatures_zone (rec : Records) (l : List RR) :
    (selectSignatures rec l).1.zone = rec.zone := by
  cases hmin : listMin? (sigExps l) with
  | none =>
    have : sigExps l = [] := (listMin?_eq_none_iff (sigExps l)).mp hmin
    have hnil : answerSigs l = [] := by
      rw [sigExps] at this
      exact List.map_eq_nil_iff.mp this
    rw [selectSignatures_of_no_sig rec l hnil]
  | some m =>
    rcases (selectSignatures_min rec l m hmin).2 with ⟨s, _, _, hfst⟩
    rw [hfst, applySig_zone]

/-- `resolve` on a transport/timeout error. -/
lemma resolve_none (rec : Records) : resolve rec none = (false, GoTime.zero, rec) := rfl

/-- `resolve` on a present response outside the AXFR-failure early
return. -/
lemma resolve_some (rec : Records) (m : DnsMsg)
    (hax : ¬(rec.type = "AXFR" ∧ m.rcode ≠ rcodeSuccess)) :
    resolve rec (some m) =
      ((decide (m.rcode = rcodeSuccess) && m.authenticatedData) || m.authoritative,
        (selectSignatures rec m.answer).2, (selectSignatures rec m.answer).1) := by
  simp [resolve, hax]

/-- `resolve` on a failed zone transfer. -/
lemma resolve_axfr_fail (rec : Records) (m : DnsMsg) (h1 : rec.type = "AXFR")
    (h2 : m.rcode ≠ rcodeSuccess) : resolve rec (some m) = (false, GoTime.zero, rec) := by
  simp [resolve, h1, h2]

/-- When the response carries no signature record, `resolve` leaves the
check untouched. -/
lemma resolve_record_unchanged (rec : Records) (resp : Option DnsMsg)
    (h : ∀ m, resp = some m → answerSigs m.answer = []) :
    (resolve rec resp).2.2 = rec := by
  cases resp with
  | none => rfl
  | some m =>
    by_cases hax : rec.type = "AXFR" ∧ m.rcode ≠ rcodeSuccess
    · rw [resolve_axfr_fail rec m hax.1 hax.2]
    · rw [resolve_some rec m hax, selectSignatures_of_no_sig rec m.answer (h m rfl)]

/-- `resolve` on a present, non-early-returning, signature-less
response. -/
lemma resolve_of_no_sig (rec : Records) (m : DnsMsg)
    (hax : ¬(rec.type = "AXFR" ∧ m.rcode ≠ rcodeSuccess))
    (hsig : answerSigs m.answer = []) :
    resolve rec (some m) =
      ((decide (m.rcode = rcodeSuccess) && m.authenticatedData) || m.authoritative,
        GoTime.zero, rec) := by
  rw [resolve_some rec m hax, selectSignatures_of_no_sig rec m.answer hsig]

/-- The goroutine emits nothing when the check's type after `resolve`
still reads "AXFR". -/
lemma collectUnit_axfr (resolvers : List String) (rec : Records) (resolver : String)
    (resp : Option DnsMsg) (now : GoTime) (h : (resolve rec resp).2.2.type = "AXFR") :
    collectUnit resolvers rec resolver resp now = ⟨none, none, none⟩ := by
  simp [collectUnit, h]

/-- The goroutine's emissions when the check's type after `resolve` is
not "AXFR". -/
lemma collectUnit_std (resolvers : List String) (rec : Records) (resolver : String)
    (resp : Option DnsMsg) (now : GoTime) (h : ¬(resolve rec resp).2.2.type = "AXFR") :
    collectUnit resolvers rec resolver resp now =
      { resolvesG := some (⟨resolver, (resolve rec resp).2.2.zone, (resolve rec resp).2.2.record,
          (resolve rec resp).2.2.type⟩, if (resolve rec resp).1 then 1 else 0)
        expiryG := if (resolve rec resp).1 then
            some (⟨resolver, (resolve rec resp).2.2.zone, (resolve rec resp).2.2.record,
              (resolve rec resp).2.2.type⟩, (resolve rec resp).2.1.unix)
          else none
        daysG := if resolvers.head? = some resolver then
            some (⟨(resolve rec resp).2.2.zone, (resolve rec resp).2.2.record,
              (resolve rec resp).2.2.type⟩, daysLeft now (resolve rec resp).2.1)
          else none } := by
  simp [collectUnit, h]

/-- With a nonnegative current Unix time, days-left of the unset (zero)
expiry saturates at the minimal Go duration: -2562047 whole hours. -/
lemma daysLeft_zero_sat (now : GoTime) (h : 0 ≤ now.unix) :
    daysLeft now GoTime.zero = (-2562047 : ℚ) / 24 := by
  have hz : GoTime.zero.unix = -62135596800 := rfl
  have hlt : (GoTime.zero.unix - now.unix) * 1000000000 < minDuration := by
    rw [hz, minDuration]
    omega
  have hle : ¬ (GoTime.zero.unix - now.unix) * 1000000000 > maxDuration := by
    rw [hz, maxDuration]
    omega
  have hsub : timeUntil now GoTime.zero = minDuration := by
    simp only [timeUntil, subSat]
    rw [if_neg hle, if_pos hlt]
  have hdiv : Int.tdiv minDuration nsPerHour = -2562047 := by decide
  rw [daysLeft, hsub, hdiv]
  norm_num

/-- Claim C1.  The claim states that on a standard lookup, `resolves`
holds iff the rcode is SUCCESS and (AD or AA), and in particular is
false for every non-SUCCESS code.  The code computes
`(rcode == SUCCESS && AD) || AA` (Go precedence), so a REFUSED response
carrying the authoritative flag yields `resolves = true`: evaluation of
the embedded `resolve` at that failing input. -/
theorem c1_resolve_nonsuccess_authoritative :
    (resolve ⟨"example.org", "www", "A"⟩
      (some ⟨rcodeRefused, false, true, []⟩)).1 = true ∧
    rcodeRefused ≠ rcodeSuccess := by
  decide

/-- Claim C2.  The claim states a zero expiration timestamp is never
selected, even as the first or sole candidate.  In the code the
`!sigexp.IsZero()` guard tests the `time.Time` zero (year 1), which
`time.Unix(0, 0)` (the epoch) is not, and the first-candidate branch
`expires.IsZero()` has no guard at all: with a sole zero-expiration
signature, `resolve` selects it and reports the epoch as the expiry. -/
theorem c2_zero_expiration_selected :
    (resolve ⟨"example.org", "@", "SOA"⟩
      (some ⟨rcodeSuccess, true, false, [RR.rrsig ⟨"example.org.", 6, 0⟩]⟩)).2.1
      = timeUnix 0 ∧
    (timeUnix 0).isZero = false ∧ timeUnix 0 ≠ GoTime.zero := by
  decide

/-- Claim C3, counterexample.  The claim states an AXFR check resolves
iff the rcode is SUCCESS regardless of the AD and AA flags; but a
SUCCESS transfer response with both flags clear yields
`resolves = false`. -/
theorem c3_axfr_success_without_flags :
    (resolve ⟨"example.org", "@", "AXFR"⟩
      (some ⟨rcodeSuccess, false, false, []⟩)).1 = false := by
  decide

/-- Claim C3, amended: for a zone-transfer check,
`resolves = (rcode == SUCCESS) && (AD || AA)`; any non-SUCCESS code
yields `resolves = false` with the expiry unset and the check
untouched. -/
theorem c3_axfr_trust_decision (rec : Records) (m : DnsMsg) (h : rec.type = "AXFR") :
    ((resolve rec (some m)).1 = true ↔
      (m.rcode = rcodeSuccess ∧ (m.authenticatedData = true ∨ m.authoritative = true))) ∧
    (m.rcode ≠ rcodeSuccess → resolve rec (some m) = (false, GoTime.zero, rec)) := by
  by_cases hrc : m.rcode = rcodeSuccess
  · constructor
    · simp [resolve, hrc]
    · intro hcontra
      exact absurd hrc hcontra
  · constructor
    · simp [resolve, h, hrc]
    · intro hne
      exact resolve_axfr_fail rec m h hrc

/-- Witness for C3: a SUCCESS transfer response with the authoritative
flag set resolves. -/
theorem c3_axfr_trust_decision_witness :
    (resolve ⟨"example.org", "@", "AXFR"⟩ (some ⟨rcodeSuccess, false, true, []⟩)).1 = true :=
  (c3_axfr_trust_decision ⟨"example.org", "@", "AXFR"⟩ ⟨rcodeSuccess, false, true, []⟩
    rfl).1.mpr ⟨rfl, Or.inr rfl⟩

/-- Claim C4, counterexample.  The claim states the resolves gauge is
emitted for no pair of an AXFR check, whether the transfer succeeds,
finds signatures, or fails; but when the transfer succeeds and a
signature is found, `resolve` overwrites the shared check's type with
the covered type ("NS" here), the post-resolve guard `rec.Type ==
"AXFR"` fails, and the gauge IS emitted (under the rewritten labels). -/
theorem c4_axfr_resolves_gauge_emitted :
    (collectUnit ["r1"] ⟨"example.org", "@", "AXFR"⟩ "r1"
      (some ⟨rcodeSuccess, false, true, [RR.rrsig ⟨"example.org.", 2, 100⟩]⟩)
      ⟨1700000000⟩).resolvesG =
    some (⟨"r1", "example.org", "example.org.", "NS"⟩, 1) := by
  decide

/-- Claim C4, amended: a unit emits no resolves gauge iff the check's
type as left by `resolve` still reads "AXFR"; in particular an AXFR
check whose transfer fails or finds no signature record emits nothing
at all. -/
theorem c4_resolves_gauge_withheld_iff (resolvers : List String) (rec : Records)
    (resolver : String) (resp : Option DnsMsg) (now : GoTime) :
    ((collectUnit resolvers rec resolver resp now).resolvesG = none ↔
      (resolve rec resp).2.2.type = "AXFR") ∧
    (rec.type = "AXFR" → (∀ m, resp = some m → answerSigs m.answer = []) →
      collectUnit resolvers rec resolver resp now = ⟨none, none, none⟩) := by
  constructor
  · by_cases ht : (resolve rec resp).2.2.type = "AXFR"
    · rw [collectUnit_axfr resolvers rec resolver resp now ht]
      simp [ht]
    · rw [collectUnit_std resolvers rec resolver resp now ht]
      simp [ht]
  · intro h1 h2
    exact collectUnit_axfr resolvers rec resolver resp now
      (by rw [resolve_record_unchanged rec resp h2]; exact h1)

/-- Witness for C4: an AXFR check refused by the resolver emits no
gauges. -/
theorem c4_resolves_gauge_withheld_iff_witness :
    collectUnit ["r1"] ⟨"example.org", "@", "AXFR"⟩ "r1"
      (some ⟨rcodeRefused, false, false, []⟩) ⟨1700000000⟩ = ⟨none, none, none⟩ :=
  (c4_resolves_gauge_withheld_iff ["r1"] ⟨"example.org", "@", "AXFR"⟩ "r1"
      (some ⟨rcodeRefused, false, false, []⟩) ⟨1700000000⟩).2 rfl
    (fun m h => by cases h; rfl)

/-- Claim C5, counterexample.  The claim states `resolve` leaves the
input check's zone, record and type unchanged; but on a standard SOA
lookup whose answer carries the covering RRSIG, the shared check's
record field is overwritten ("@" becomes the signature's owner name). -/
theorem c5_resolve_mutates_check :
    (resolve ⟨"example.org", "@", "SOA"⟩
      (some ⟨rcodeSuccess, true, false, [RR.rrsig ⟨"example.org.", 6, 6400⟩]⟩)).2.2.record
      = "example.org." ∧ ("example.org." : String) ≠ "@" := by
  decide

/-- Claim C5, amended: `resolve` never changes the zone field, leaves
the check untouched when no signature record is present, but writes the
owner name and covered type of a minimum-expiry signature back into the
shared check value whenever the answer contains one. -/
theorem c5_resolve_frame (rec : Records) (resp : Option DnsMsg) :
    (resolve rec resp).2.2.zone = rec.zone ∧
    ((∀ m, resp = some m → answerSigs m.answer = []) → (resolve rec resp).2.2 = rec) ∧
    (∀ m, resp = some m → ¬(rec.type = "AXFR" ∧ m.rcode ≠ rcodeSuccess) →
      ∀ mv, listMin? (sigExps m.answer) = some mv →
        ∃ s ∈ answerSigs m.answer, s.expiration = mv ∧
          (resolve rec resp).2.2 = applySig rec s) := by
  refine ⟨?_, resolve_record_unchanged rec resp, ?_⟩
  · cases resp with
    | none => rfl
    | some m =>
      by_cases hax : rec.type = "AXFR" ∧ m.rcode ≠ rcodeSuccess
      · rw [resolve_axfr_fail rec m hax.1 hax.2]
      · rw [resolve_some rec m hax]
        exact selectSignatures_zone rec m.answer
  · intro m hm hax mv hmv
    subst hm
    obtain ⟨s, hmem, hexp, hid⟩ := (selectSignatures_min rec m.answer mv hmv).2
    refine ⟨s, hmem, hexp, ?_⟩
    rw [resolve_some rec m hax]
    exact hid

/-- Witness for C5: the override lands in the shared check. -/
theorem c5_resolve_frame_witness :
    (resolve ⟨"example.org", "@", "SOA"⟩
      (some ⟨rcodeSuccess, true, false, [RR.rrsig ⟨"example.org.", 6, 6400⟩]⟩)).2.2.zone
      = "example.org" ∧
    ∃ s ∈ answerSigs [RR.rrsig ⟨"example.org.", 6, 6400⟩], s.expiration = 6400 ∧
      (resolve ⟨"example.org", "@", "SOA"⟩
        (some ⟨rcodeSuccess, true, false, [RR.rrsig ⟨"example.org.", 6, 6400⟩]⟩)).2.2
        = applySig ⟨"example.org", "@", "SOA"⟩ s :=
  ⟨(c5_resolve_frame ⟨"example.org", "@", "SOA"⟩
      (some ⟨rcodeSuccess, true, false, [RR.rrsig ⟨"example.org.", 6, 6400⟩]⟩)).1,
   (c5_resolve_frame ⟨"example.org", "@", "SOA"⟩
      (some ⟨rcodeSuccess, true, false, [RR.rrsig ⟨"example.org.", 6, 6400⟩]⟩)).2.2
     ⟨rcodeSuccess, true, false, [RR.rrsig ⟨"example.org.", 6, 6400⟩]⟩ rfl
     (by decide) 6400 (by decide)⟩

/-- Claim C6, counterexample.  The claim states every permutation of a
fixed signature multiset yields the same effective owner name; but two
signatures tying at the minimal expiration make the reported owner
depend on arrival order. -/
theorem c6_tie_order_dependent :
    List.Perm [RR.rrsig ⟨"a.example.org.", 6, 100⟩, RR.rrsig ⟨"b.example.org.", 2, 100⟩]
      [RR.rrsig ⟨"b.example.org.", 2, 100⟩, RR.rrsig ⟨"a.example.org.", 6, 100⟩] ∧
    (selectSignatures ⟨"example.org", "@", "SOA"⟩
        [RR.rrsig ⟨"a.example.org.", 6, 100⟩, RR.rrsig ⟨"b.example.org.", 2, 100⟩]).1.record ≠
    (selectSignatures ⟨"example.org", "@", "SOA"⟩
        [RR.rrsig ⟨"b.example.org.", 2, 100⟩, RR.rrsig ⟨"a.example.org.", 6, 100⟩]).1.record := by
  constructor
  · exact List.Perm.swap (RR.rrsig ⟨"b.example.org.", 2, 100⟩)
      (RR.rrsig ⟨"a.example.org.", 6, 100⟩) []
  · decide

/-- Claim C6, amended: the selected expiry timestamp is invariant under
every permutation of the answer section; the reported owner name and
covered type are additionally invariant whenever exactly one signature
record achieves the minimal expiration. -/
theorem c6_selection_perm_invariant (rec : Records) (l l2 : List RR) (p : l.Perm l2) :
    (selectSignatures rec l).2 = (selectSignatures rec l2).2 ∧
    (∀ mv, listMin? (sigExps l) = some mv →
      ((answerSigs l).filter (fun s => decide (s.expiration = mv))).length = 1 →
      (selectSignatures rec l).1 = (selectSignatures rec l2).1) := by
  have psig : (answerSigs l).Perm (answerSigs l2) := p.filterMap sigOf
  have pexp : (sigExps l).Perm (sigExps l2) := by
    simp only [sigExps]
    exact psig.map (fun s => s.expiration)
  have hmin : listMin? (sigExps l) = listMin? (sigExps l2) :=
    listMin?_perm (sigExps l) (sigExps l2) pexp
  constructor
  · cases hml : listMin? (sigExps l) with
    | none =>
      have h1 : sigExps l = [] := (listMin?_eq_none_iff (sigExps l)).mp hml
      have h2 : sigExps l2 = [] := by
        refine (listMin?_eq_none_iff (sigExps l2)).mp ?_
        rw [← hmin]
        exact hml
      rw [sigExps] at h1 h2
      rw [selectSignatures_of_no_sig rec l (List.map_eq_nil_iff.mp h1),
        selectSignatures_of_no_sig rec l2 (List.map_eq_nil_iff.mp h2)]
    | some mv =>
      have hml2 : listMin? (sigExps l2) = some mv := by
        rw [← hmin]
        exact hml
      rw [(selectSignatures_min rec l mv hml).1, (selectSignatures_min rec l2 mv hml2).1]
  · intro mv hml hcount
    have hml2 : listMin? (sigExps l2) = some mv := by
      rw [← hmin]
      exact hml
    obtain ⟨s, hsmem, hexp, hid⟩ := (selectSignatures_min rec l mv hml).2
    obtain ⟨s2, hs2mem, hexp2, hid2⟩ := (selectSignatures_min rec l2 mv hml2).2
    obtain ⟨x, hx⟩ := List.length_eq_one.mp hcount
    have hs_in : s ∈ (answerSigs l).filter (fun s => decide (s.expiration = mv)) :=
      List.mem_filter.mpr ⟨hsmem, by simp [hexp]⟩
    have hs2_in : s2 ∈ (answerSigs l).filter (fun s => decide (s.expiration = mv)) :=
      List.mem_filter.mpr ⟨psig.mem_iff.mpr hs2mem, by simp [hexp2]⟩
    rw [hx] at hs_in hs2_in
    have hxs : s = x := by simpa using hs_in
    have hxs2 : s2 = x := by simpa using hs2_in
    rw [hid, hid2, hxs, hxs2]

/-- Witness for C6: on a two-signature answer with a unique minimum,
both orders select the same timestamp and the same identity. -/
theorem c6_selection_perm_invariant_witness :
    (selectSignatures ⟨"example.org", "@", "SOA"⟩
        [RR.rrsig ⟨"a.", 6, 50⟩, RR.rrsig ⟨"b.", 2, 100⟩]).2 =
    (selectSignatures ⟨"example.org", "@", "SOA"⟩
        [RR.rrsig ⟨"b.", 2, 100⟩, RR.rrsig ⟨"a.", 6, 50⟩]).2 ∧
    (selectSignatures ⟨"example.org", "@", "SOA"⟩
        [RR.rrsig ⟨"a.", 6, 50⟩, RR.rrsig ⟨"b.", 2, 100⟩]).1 =
    (selectSignatures ⟨"example.org", "@", "SOA"⟩
        [RR.rrsig ⟨"b.", 2, 100⟩, RR.rrsig ⟨"a.", 6, 50⟩]).1 :=
  ⟨(c6_selection_perm_invariant ⟨"example.org", "@", "SOA"⟩
      [RR.rrsig ⟨"a.", 6, 50⟩, RR.rrsig ⟨"b.", 2, 100⟩]
      [RR.rrsig ⟨"b.", 2, 100⟩, RR.rrsig ⟨"a.", 6, 50⟩]
      (List.Perm.swap (RR.rrsig ⟨"b.", 2, 100⟩) (RR.rrsig ⟨"a.", 6, 50⟩) [])).1,
   (c6_selection_perm_invariant ⟨"example.org", "@", "SOA"⟩
      [RR.rrsig ⟨"a.", 6, 50⟩, RR.rrsig ⟨"b.", 2, 100⟩]
      [RR.rrsig ⟨"b.", 2, 100⟩, RR.rrsig ⟨"a.", 6, 50⟩]
      (List.Perm.swap (RR.rrsig ⟨"b.", 2, 100⟩) (RR.rrsig ⟨"a.", 6, 50⟩) [])).2
     50 (by decide) (by decide)⟩

/-- Claim C7, counterexample.  The claim states the days-remaining
gauge is still emitted for every check when the primary evaluation
fails; but an AXFR check whose transfer is refused on the primary
resolver emits no days-remaining gauge at all. -/
theorem c7_axfr_days_left_omitted :
    (collectUnit ["r1", "r2"] ⟨"example.org", "@", "AXFR"⟩ "r1"
      (some ⟨rcodeRefused, false, false, []⟩) ⟨1700000000⟩).daysG = none := by
  decide

/-- Claim C7, amended: the days-remaining gauge is only ever set by a
unit whose resolver equals the first configured resolver; for a unit
whose check type after `resolve` is not "AXFR", it is emitted even when
resolution fails (transport error included), with the value computed
from the returned (possibly zero) expiry. -/
theorem c7_days_left_primary (resolvers : List String) (rec : Records) (resolver : String)
    (resp : Option DnsMsg) (now : GoTime) :
    ((collectUnit resolvers rec resolver resp now).daysG ≠ none →
      resolvers.head? = some resolver) ∧
    ((resolve rec resp).2.2.type ≠ "AXFR" → resolvers.head? = some resolver →
      (collectUnit resolvers rec resolver resp now).daysG =
        some (⟨(resolve rec resp).2.2.zone, (resolve rec resp).2.2.record,
          (resolve rec resp).2.2.type⟩, daysLeft now (resolve rec resp).2.1)) ∧
    (resp = none → rec.type ≠ "AXFR" → resolvers.head? = some resolver →
      (collectUnit resolvers rec resolver resp now).daysG =
        some (⟨rec.zone, rec.record, rec.type⟩, daysLeft now GoTime.zero)) := by
  refine ⟨?_, ?_, ?_⟩
  · intro hne
    by_cases ht : (resolve rec resp).2.2.type = "AXFR"
    · rw [collectUnit_axfr resolvers rec resolver resp now ht] at hne
      exact absurd rfl hne
    · rw [collectUnit_std resolvers rec resolver resp now ht] at hne
      by_cases hr : resolvers.head? = some resolver
      · exact hr
      · rw [if_neg hr] at hne
        exact absurd rfl hne
  · intro ht hr
    rw [collectUnit_std resolvers rec resolver resp now ht]
    rw [if_pos hr]
  · intro hresp ht hr
    subst hresp
    have ht2 : (resolve rec none).2.2.type ≠ "AXFR" := ht
    rw [collectUnit_std resolvers rec resolver none now ht2]
    rw [if_pos hr]
    rfl

/-- Witness for C7: a transport error on the primary resolver still
produces the days-remaining gauge, from the zero expiry. -/
theorem c7_days_left_primary_witness :
    (collectUnit ["r1"] ⟨"example.org", "@", "SOA"⟩ "r1" none ⟨1700000000⟩).daysG =
      some (⟨"example.org", "@", "SOA"⟩, daysLeft ⟨1700000000⟩ GoTime.zero) :=
  (c7_days_left_primary ["r1"] ⟨"example.org", "@", "SOA"⟩ "r1" none ⟨1700000000⟩).2.2
    rfl (by decide) rfl

/-- Claim C8, counterexample.  The claim states the selected expiry is
the minimum among signatures with nonzero expiration; but a
zero-expiration signature participates and wins (as the epoch) against
a nonzero one. -/
theorem c8_zero_beats_nonzero_min :
    (selectSignatures ⟨"example.org", "@", "SOA"⟩
      [RR.rrsig ⟨"a.example.org.", 6, 0⟩, RR.rrsig ⟨"b.example.org.", 6, 100⟩]).2
      = timeUnix 0 ∧ timeUnix (0 : Int) ≠ timeUnix (100 : Int) := by
  decide

/-- Claim C8, amended: for an answer with at least one signature, the
selected expiry is the minimum expiration over ALL signatures (a zero
expiration participating as the Unix epoch), and the reported owner
name and covered type are those of a signature achieving that
minimum. -/
theorem c8_earliest_expiry_min (rec : Records) (l : List RR) (mv : Nat)
    (h : listMin? (sigExps l) = some mv) :
    (selectSignatures rec l).2 = timeUnix (mv : Int) ∧
    ∃ s ∈ answerSigs l, s.expiration = mv ∧
      (selectSignatures rec l).1.record = s.hdrName ∧
      (selectSignatures rec l).1.type = typeToString s.typeCovered := by
  obtain ⟨h1, s, hmem, hexp, hid⟩ := selectSignatures_min rec l mv h
  exact ⟨h1, s, hmem, hexp, by rw [hid]; rfl, by rw [hid]; rfl⟩

/-- Witness for C8: the earlier of two signatures is selected together
with its identity. -/
theorem c8_earliest_expiry_min_witness :
    (selectSignatures ⟨"example.org", "@", "AXFR"⟩
      [RR.rrsig ⟨"example.org.", 6, 10000⟩, RR.rrsig ⟨"example.org.", 2, 6400⟩]).2
      = timeUnix (6400 : Int) :=
  (c8_earliest_expiry_min ⟨"example.org", "@", "AXFR"⟩
    [RR.rrsig ⟨"example.org.", 6, 10000⟩, RR.rrsig ⟨"example.org.", 2, 6400⟩]
    6400 (by decide)).1

/-- Claim C9, counterexample.  The claim states the earliest-expiry
gauge is emitted iff `resolves = true`; but a successful, signature-less
zone transfer has `resolves = true` while its unit emits nothing
(the check's type still reads "AXFR"). -/
theorem c9_axfr_resolved_expiry_withheld :
    (resolve ⟨"example.org", "@", "AXFR"⟩ (some ⟨rcodeSuccess, false, true, []⟩)).1 = true ∧
    (collectUnit ["r1"] ⟨"example.org", "@", "AXFR"⟩ "r1"
      (some ⟨rcodeSuccess, false, true, []⟩) ⟨1700000000⟩).expiryG = none := by
  decide

/-- Claim C9, amended: a transport/timeout error yields
`resolves = false` with the expiry unset and no expiry gauge; and for
every pair the expiry gauge is emitted iff `resolves = true` AND the
check's type after `resolve` is not "AXFR". -/
theorem c9_transport_error_and_expiry_gauge (resolvers : List String) (rec : Records)
    (resolver : String) (resp : Option DnsMsg) (now : GoTime) :
    (resp = none → resolve rec resp = (false, GoTime.zero, rec) ∧
      (collectUnit resolvers rec resolver resp now).expiryG = none) ∧
    ((collectUnit resolvers rec resolver resp now).expiryG ≠ none ↔
      ((resolve rec resp).1 = true ∧ (resolve rec resp).2.2.type ≠ "AXFR")) := by
  constructor
  · intro hresp
    subst hresp
    refine ⟨rfl, ?_⟩
    by_cases ht : (resolve rec none).2.2.type = "AXFR"
    · rw [collectUnit_axfr resolvers rec resolver none now ht]
    · rw [collectUnit_std resolvers rec resolver none now ht]
      simp [resolve_none]
  · by_cases ht : (resolve rec resp).2.2.type = "AXFR"
    · rw [collectUnit_axfr resolvers rec resolver resp now ht]
      simp [ht]
    · rw [collectUnit_std resolvers rec resolver resp now ht]
      by_cases hres : (resolve rec resp).1
      · simp [hres, ht]
      · simp [hres, ht]

/-- Witness for C9: a transport error emits no expiry gauge. -/
theorem c9_transport_error_witness :
    resolve ⟨"example.org", "@", "SOA"⟩ none =
      (false, GoTime.zero, ⟨"example.org", "@", "SOA"⟩) ∧
    (collectUnit ["r1"] ⟨"example.org", "@", "SOA"⟩ "r1" none ⟨1700000000⟩).expiryG = none :=
  (c9_transport_error_and_expiry_gauge ["r1"] ⟨"example.org", "@", "SOA"⟩ "r1"
    none ⟨1700000000⟩).1 rfl

/-- Claim C10.  A standard check whose response resolves but carries no
signature record still gets the expiry gauge, carrying the Unix value of
the zero time, -62135596800; and on the primary resolver the
days-remaining gauge is the saturated, hugely negative -2562047/24
(about -106751.96 days). -/
theorem c10_unsigned_resolving_emissions (resolvers : List String) (rec : Records)
    (resolver : String) (m : DnsMsg) (now : GoTime)
    (ht : rec.type ≠ "AXFR") (hsig : answerSigs m.answer = [])
    (hres : (resolve rec (some m)).1 = true) (hnow : 0 ≤ now.unix) :
    (collectUnit resolvers rec resolver (some m) now).expiryG =
      some (⟨resolver, rec.zone, rec.record, rec.type⟩, -62135596800) ∧
    (resolvers.head? = some resolver →
      (collectUnit resolvers rec resolver (some m) now).daysG =
        some (⟨rec.zone, rec.record, rec.type⟩, (-2562047 : ℚ) / 24) ∧
      ((-2562047 : ℚ) / 24 < -100000)) := by
  have hax : ¬(rec.type = "AXFR" ∧ m.rcode ≠ rcodeSuccess) := fun hc => ht hc.1
  have h0 : resolve rec (some m) =
      ((decide (m.rcode = rcodeSuccess) && m.authenticatedData) || m.authoritative,
        GoTime.zero, rec) := resolve_of_no_sig rec m hax hsig
  have hz : (resolve rec (some m)).2.1 = GoTime.zero := by rw [h0]
  have hrec : (resolve rec (some m)).2.2 = rec := by rw [h0]
  have ht2 : (resolve rec (some m)).2.2.type ≠ "AXFR" := by
    rw [hrec]
    exact ht
  have hcu := collectUnit_std resolvers rec resolver (some m) now ht2
  constructor
  · rw [hcu]
    simp [hres, hz, hrec, GoTime.zero, zeroUnix]
  · intro hr
    constructor
    · rw [hcu]
      simp [hr, hz, hrec, daysLeft_zero_sat now hnow]
    · norm_num

/-- Witness for C10: concrete unsigned-but-resolving standard lookup on
the primary resolver. -/
theorem c10_unsigned_resolving_emissions_witness :
    (collectUnit ["r1"] ⟨"example.org", "@", "SOA"⟩ "r1"
      (some ⟨rcodeSuccess, true, false, []⟩) ⟨1700000000⟩).expiryG =
      some (⟨"r1", "example.org", "@", "SOA"⟩, -62135596800) ∧
    (collectUnit ["r1"] ⟨"example.org", "@", "SOA"⟩ "r1"
      (some ⟨rcodeSuccess, true, false, []⟩) ⟨1700000000⟩).daysG =
      some (⟨"example.org", "@", "SOA"⟩, (-2562047 : ℚ) / 24) ∧
    ((-2562047 : ℚ) / 24 < -100000) :=
  ⟨(c10_unsigned_resolving_emissions ["r1"] ⟨"example.org", "@", "SOA"⟩ "r1"
      ⟨rcodeSuccess, true, false, []⟩ ⟨1700000000⟩ (by decide) rfl (by decide) (by decide)).1,
   (c10_unsigned_resolving_emissions ["r1"] ⟨"example.org", "@", "SOA"⟩ "r1"
      ⟨rcodeSuccess, true, false, []⟩ ⟨1700000000⟩ (by decide) rfl (by decide) (by decide)).2 rfl⟩

/-!
Cross-validation of the embedding against the repository's own test
expectations: `TestAxfrExpiresFirst` (the NS signature, expiring before
the SOA one, wins and rewrites the check type) and
`TestAxfrExpiresFirstDoubleSoa` (a second, earlier SOA signature wins
instead), and Go's truncated int64 division used for the days-left
gauge.
-/

example : Int.tdiv (-9) 4 = -2 := by decide

example : Int.tdiv (-9223372036854775808) 3600000000000 = -2562047 := by decide

example :
    (resolve ⟨"example.org", "@", "AXFR"⟩
      (some ⟨rcodeSuccess, false, true,
        [RR.other "example.org." 6, RR.rrsig ⟨"example.org.", 6, 10000⟩,
         RR.other "example.org." 2, RR.rrsig ⟨"example.org.", 2, 6400⟩,
         RR.other "example.org." 6]⟩)).2.2.type = "NS" := by decide

example :
    (resolve ⟨"example.org", "@", "AXFR"⟩
      (some ⟨rcodeSuccess, false, true,
        [RR.other "example.org." 6, RR.rrsig ⟨"example.org.", 6, 10000⟩,
         RR.rrsig ⟨"example.org.", 6, 500⟩,
         RR.other "example.org." 2, RR.rrsig ⟨"example.org.", 2, 6400⟩,
         RR.other "example.org." 6]⟩)).2.2.type = "SOA" := by decide
